import Mathlib

/- Verification development for the conversational query-resolution engine in
   src/app/api/chat/route.ts. The TypeScript is shallowly embedded: JS numbers
   become exact rationals, JS strings become Lean strings operated on as char
   lists, the regular expressions of the source are translated into explicit
   scanners with the same matching semantics (word boundaries, lazy capture,
   greedy quantifiers with backtracking, matchAll continuation), and the stable
   Array.prototype.sort with a numeric comparator is modelled by a stable
   insertion sort over the induced total preorder. Answer templates are
   modelled structurally: each return site of buildRuleBasedAnswer becomes one
   constructor of RuleAnswer carrying exactly the data interpolated into the
   template string (locale number formatting is not modelled). The single
   external HTTP call of the gateway adapter is modelled by a GatewayOutcome
   parameter to the orchestrator. -/

namespace AdsChat

/- Character classes of the source regexes, restricted to ASCII inputs:
   isWordChar is the regex word class, isSpaceChar the whitespace class. -/

def isWordChar (c : Char) : Bool := c.isAlpha || c.isDigit || c = '_'

def isSpaceChar (c : Char) : Bool :=
  c = ' ' || c = '\t' || c = '\n' || c = '\r' || c = '\x0b' || c = '\x0c'

/- String.prototype.toLowerCase, for ASCII text. -/
def jsLower (s : List Char) : List Char := s.map Char.toLower

def jsLowerS (s : String) : String := String.mk (jsLower s.data)

/- String.prototype.includes: substring containment. -/
def hasSubstr (pat : List Char) : List Char → Bool
  | [] => pat.isEmpty
  | c :: rest => pat.isPrefixOf (c :: rest) || hasSubstr pat rest

def jsIncludes (hay pat : String) : Bool := hasSubstr pat.data hay.data

/- Matching a literal token at the start of s, requiring a word boundary
   after it (the token itself ends in a word character). -/
def matchTokenAt (pat s : List Char) : Bool :=
  pat.isPrefixOf s &&
    (match s.drop pat.length with
     | [] => true
     | d :: _ => !isWordChar d)

def containsTokenWBAux (pat : List Char) : List Char → Bool → Bool
  | [], _ => false
  | c :: rest, prevW =>
      (!prevW && matchTokenAt pat (c :: rest)) || containsTokenWBAux pat rest (isWordChar c)

/- A test for a regex of the shape \b<literal>\b (the literal starts and ends
   with word characters): some occurrence of the literal flanked by word
   boundaries. -/
def containsTokenWB (pat s : List Char) : Bool := containsTokenWBAux pat s false

def containsTokenWBS (pat s : String) : Bool := containsTokenWB pat.data s.data

/- Splitting on a separator character; mirrors String.prototype.split with a
   single-character separator. -/
def splitOnChar (sep : Char) : List Char → List (List Char)
  | [] => [[]]
  | c :: rest =>
      if c = sep then [] :: splitOnChar sep rest
      else
        match splitOnChar sep rest with
        | seg :: segs => (c :: seg) :: segs
        | [] => [[c]]

/- All matches of /"([^"]{2,maxLen})"/g on text already split at the quote
   characters: the segments between consecutive quotes are the candidate
   contents; a candidate of admissible length consumes its closing quote, a
   failing candidate leaves the closing quote available as the next opening
   quote, exactly as the backtracking regex engine does. -/
def quotedSegments (maxLen : ℕ) : List (List Char) → List (List Char)
  | _ :: s1 :: rest =>
      if rest.isEmpty then []
      else if 2 ≤ s1.length && s1.length ≤ maxLen then s1 :: quotedSegments maxLen rest
      else quotedSegments maxLen (s1 :: rest)
  | _ => []

def extractQuoted (maxLen : ℕ) (s : List Char) : List (List Char) :=
  quotedSegments maxLen (splitOnChar '"' s)

/- String.prototype.trim (ASCII whitespace). -/
def trimChars (s : List Char) : List Char :=
  ((s.dropWhile isSpaceChar).reverse.dropWhile isSpaceChar).reverse

/- The text normalizer: lowercase, replace characters outside [a-z0-9\s] by a
   space, collapse whitespace runs to single spaces, trim. -/
def normChar (c : Char) : Char :=
  if ('a' ≤ c && c ≤ 'z') || ('0' ≤ c && c ≤ '9') || isSpaceChar c then c else ' '

def collapseAux : List Char → Bool → List Char
  | [], _ => []
  | c :: rest, inRun =>
      if isSpaceChar c then
        if inRun then collapseAux rest true else ' ' :: collapseAux rest true
      else c :: collapseAux rest false

def normalizeText (s : List Char) : List Char :=
  trimChars (collapseAux ((jsLower s).map normChar) false)

/- splitTokens: split normalized text on spaces, drop tokens of length <= 1. -/
def splitTokens (s : String) : List (List Char) :=
  (splitOnChar ' ' (normalizeText s.data)).filter (fun t => 1 < t.length)

/- Stable sort. V8 Array.prototype.sort is stable; for a consistent numeric
   comparator the sorted output is uniquely determined by the induced total
   preorder together with stability, so this structurally recursive stable
   insertion sort computes the same list. le a b means the comparator returns
   a non-positive value on (a, b). -/
def insertSorted (le : α → α → Bool) (x : α) : List α → List α
  | [] => [x]
  | y :: t => if le x y then x :: y :: t else y :: insertSorted le x t

def stableSort (le : α → α → Bool) : List α → List α
  | [] => []
  | x :: t => insertSorted le x (stableSort le t)

/- Digit-run value, for Number(match) on a captured digit string. -/
def digitsVal (l : List Char) : ℕ := l.foldl (fun n c => n * 10 + (c.toNat - 48)) 0

/- Word boundary after a digit: end of input or a non-word character. -/
def boundaryAfter : List Char → Bool
  | [] => true
  | d :: _ => !isWordChar d

/- Scanner for the ranked-list item regex
   (?:^|\n)\s*\d+\.\s(.+?)\s[-]\s (route.ts lines 301 and 357; the variant at
   line 271 also admits the en and em dashes, hence the dash parameter).
   matchLazyCapture implements the lazy (.+?) followed by \s<dash>\s: it
   extends the capture one character at a time (never across a newline) and
   stops at the earliest terminator. -/
def matchLazyCapture (dash : Char → Bool) : List Char → List Char → Option (List Char × List Char)
  | [], _ => none
  | c :: rest, acc =>
      if c = '\n' then none
      else
        let acc2 := acc ++ [c]
        match rest with
        | a :: d :: b :: rest2 =>
            if isSpaceChar a && dash d && isSpaceChar b then some (acc2, rest2)
            else matchLazyCapture dash rest acc2
        | _ => matchLazyCapture dash rest acc2

/- The \s*\d+\.\s(.+?)\s<dash>\s part, tried at a position where the ^|\n
   anchor already matched. -/
def matchRankedAt (dash : Char → Bool) (s : List Char) : Option (List Char × List Char) :=
  let s1 := s.dropWhile isSpaceChar
  let ds := s1.takeWhile Char.isDigit
  if ds.isEmpty then none
  else
    match s1.drop ds.length with
    | '.' :: c :: rest => if isSpaceChar c then matchLazyCapture dash rest [] else none
    | _ => none

/- matchAll over the whole text: the anchor consumes a newline (or matches the
   start of input), and after a successful match scanning resumes at the end
   of that match. Fuel is the length of the remaining text, which every step
   strictly decreases, so it never runs out. -/
def scanRankedAux (dash : Char → Bool) : ℕ → List Char → List (List Char)
  | 0, _ => []
  | _, [] => []
  | fuel + 1, c :: rest =>
      if c = '\n' then
        match matchRankedAt dash rest with
        | some (name, after) => name :: scanRankedAux dash fuel after
        | none => scanRankedAux dash fuel rest
      else scanRankedAux dash fuel rest

def scanRanked (dash : Char → Bool) (s : List Char) : List (List Char) :=
  match matchRankedAt dash s with
  | some (name, after) => name :: scanRankedAux dash after.length after
  | none => scanRankedAux dash s.length s

def hyphenDash (c : Char) : Bool := c = '-'

def anyDash (c : Char) : Bool := c = '-' || c = '–' || c = '—'

/- Scanners for the two numeric ordinal regexes of extractOrdinalIndexes. -/

def ordSuffix (a b : Char) : Bool :=
  (a = 's' && b = 't') || (a = 'n' && b = 'd') || (a = 'r' && b = 'd') || (a = 't' && b = 'h')

/- \s+(?:one|campaign|option)\b after the digits (and optional ordinal
   suffix); returns the rest after the keyword. -/
def ordKeywordAt (r : List Char) : Option (List Char) :=
  if matchTokenAt ("one").data r then some (r.drop 3)
  else if matchTokenAt ("campaign").data r then some (r.drop 8)
  else if matchTokenAt ("option").data r then some (r.drop 6)
  else none

def ordSpacesThenKeyword (rest : List Char) : Option (List Char) :=
  let sp := rest.takeWhile isSpaceChar
  if sp.isEmpty then none else ordKeywordAt (rest.drop sp.length)

/- (?:st|nd|rd|th)?\s+... with the greedy optional suffix tried first and
   dropped on failure, as the backtracking engine does. -/
def ordAfterDigits (rest : List Char) : Option (List Char) :=
  match rest with
  | a :: b :: r2 =>
      if ordSuffix a b then
        match ordSpacesThenKeyword r2 with
        | some r => some r
        | none => ordSpacesThenKeyword rest
      else ordSpacesThenKeyword rest
  | _ => ordSpacesThenKeyword rest

/- \b(\d{1,2})(?:st|nd|rd|th)?\s+(?:one|campaign|option)\b tried at a
   position starting with a digit (the boundary before is checked by the
   scanner); \d{1,2} is greedy, backtracking from two digits to one. -/
def tryOrdinalAt (s : List Char) : Option (ℕ × List Char) :=
  let ds := s.takeWhile Char.isDigit
  let two : Option (ℕ × List Char) :=
    if 2 ≤ ds.length then
      match ordAfterDigits (s.drop 2) with
      | some r => some (digitsVal (ds.take 2), r)
      | none => none
    else none
  match two with
  | some v => some v
  | none =>
    if 1 ≤ ds.length then
      match ordAfterDigits (s.drop 1) with
      | some r => some (digitsVal (ds.take 1), r)
      | none => none
    else none

def scanOrdinalAux : ℕ → List Char → Bool → List ℕ
  | 0, _, _ => []
  | _, [], _ => []
  | fuel + 1, c :: rest, prevW =>
      if !prevW && c.isDigit then
        match tryOrdinalAt (c :: rest) with
        | some (n, after) => n :: scanOrdinalAux fuel after true
        | none => scanOrdinalAux fuel rest (isWordChar c)
      else scanOrdinalAux fuel rest (isWordChar c)

/- (\d{1,2})\b: one or two digits followed by a word boundary, greedy with
   backtracking. -/
def tryNumTail (s : List Char) : Option (ℕ × List Char) :=
  let ds := s.takeWhile Char.isDigit
  if ds.isEmpty then none
  else if 2 ≤ ds.length && boundaryAfter (s.drop 2) then some (digitsVal (ds.take 2), s.drop 2)
  else if boundaryAfter (s.drop 1) then some (digitsVal (ds.take 1), s.drop 1)
  else none

/- Scanner for (?:\bnumber\s+|#)(\d{1,2})\b. -/
def scanNumAux : ℕ → List Char → Bool → List ℕ
  | 0, _, _ => []
  | _, [], _ => []
  | fuel + 1, c :: rest, prevW =>
      if c = '#' then
        match tryNumTail rest with
        | some (n, after) => n :: scanNumAux fuel after true
        | none => scanNumAux fuel rest false
      else if !prevW && ("number").data.isPrefixOf (c :: rest) then
        let r1 := (c :: rest).drop 6
        let sp := r1.takeWhile isSpaceChar
        if sp.isEmpty then scanNumAux fuel rest (isWordChar c)
        else
          match tryNumTail (r1.drop sp.length) with
          | some (n, after) => n :: scanNumAux fuel after true
          | none => scanNumAux fuel rest (isWordChar c)
      else scanNumAux fuel rest (isWordChar c)

/- Scanner for \b(top|best|highest|lowest|worst|least|most)\s+(\d{1,2})\b of
   findTopN, applied to the lowercased question (the source regex carries the
   i flag); returns the first captured count. -/
def topKeywords : List (List Char) :=
  [("top").data, ("best").data, ("highest").data, ("lowest").data,
   ("worst").data, ("least").data, ("most").data]

def tryTopNAt (s : List Char) : Option ℕ :=
  topKeywords.findSome? (fun kw =>
    if kw.isPrefixOf s then
      let r1 := s.drop kw.length
      let sp := r1.takeWhile isSpaceChar
      if sp.isEmpty then none
      else
        match tryNumTail (r1.drop sp.length) with
        | some (n, _) => some n
        | none => none
    else none)

def findTopNAux : List Char → Bool → Option ℕ
  | [], _ => none
  | c :: rest, prevW =>
      match (if !prevW then tryTopNAt (c :: rest) else none) with
      | some n => some n
      | none => findTopNAux rest (isWordChar c)

/- The first match of the findTopN regex, as a captured count. -/
def findTopNMatch (query : String) : Option ℕ := findTopNAux (jsLower query.data) false

/- findTopN (route.ts 100-105): clamp the captured count to [1, 10], default
   1 when there is no match. A captured 1-2 digit number is always finite, so
   the Number.isFinite guard of the source is vacuous here. -/
def findTopN (query : String) : ℕ :=
  match findTopNMatch query with
  | none => 1
  | some n => min (max 1 n) 10

/- Canonical metrics and sort polarity. -/

inductive Metric
  | spend
  | impressions
  | clicks
  | results
  | ctr
  | cpc
  | cpm
deriving DecidableEq

inductive Order
  | asc
  | desc
deriving DecidableEq

/- detectMetric (route.ts 107-117): ordered keyword cascade on the
   lowercased question. -/
def detectMetric (query : String) : Option Metric :=
  let q := jsLowerS query
  if jsIncludes q ("cost per click") || containsTokenWBS ("cpc") q then some .cpc
  else if jsIncludes q ("cost per thousand") || containsTokenWBS ("cpm") q then some .cpm
  else if jsIncludes q ("click through rate") || containsTokenWBS ("ctr") q then some .ctr
  else if jsIncludes q ("impression") then some .impressions
  else if jsIncludes q ("click") then some .clicks
  else if jsIncludes q ("result") || jsIncludes q ("conversion") then some .results
  else if jsIncludes q ("spend") || jsIncludes q ("cost") || jsIncludes q ("budget") then some .spend
  else none

def hasAscSignal (q : String) : Bool :=
  containsTokenWBS ("lowest") q || containsTokenWBS ("least") q ||
    containsTokenWBS ("min") q || containsTokenWBS ("bottom") q

def hasDescSignal (q : String) : Bool :=
  containsTokenWBS ("highest") q || containsTokenWBS ("most") q ||
    containsTokenWBS ("max") q || containsTokenWBS ("top") q

def isCostMetric (metric : Option Metric) : Bool :=
  metric = some .cpc || metric = some .cpm

/- detectOrder (route.ts 119-130). -/
def detectOrder (query : String) (metric : Option Metric) : Order :=
  let q := jsLowerS query
  if hasAscSignal q then .asc
  else if hasDescSignal q then .desc
  else if jsIncludes q ("best") then (if isCostMetric metric then .asc else .desc)
  else if jsIncludes q ("worst") then (if isCostMetric metric then .desc else .asc)
  else if isCostMetric metric then .asc
  else .desc

/- Data model (route.ts 20-56): snapshot rows and derived rows. JS numbers
   are embedded as rationals. -/

structure CampaignMetric where
  id : String
  name : String
  spend : ℚ
  impressions : ℚ
  clicks : ℚ
  results : ℚ
  cpc : Option ℚ
  cpm : Option ℚ
  platform : Option String
deriving DecidableEq

structure CampaignWithDerived extends CampaignMetric where
  ctr : ℚ
  safeCpc : ℚ
  safeCpm : ℚ
deriving DecidableEq

structure AdMetric where
  id : String
  name : String
  campaignName : String
  adSetName : Option String
  spend : ℚ
  impressions : ℚ
  clicks : ℚ
  results : ℚ
  cpc : Option ℚ
  cpm : Option ℚ
deriving DecidableEq

structure AdWithDerived extends AdMetric where
  ctr : ℚ
  safeCpc : ℚ
  safeCpm : ℚ
  efficiencyScore : ℚ
deriving DecidableEq

/- The JS idiom x || 0 on a nullable number: null and 0 both give 0. -/
def jsOrZero (o : Option ℚ) : ℚ := o.getD 0

/- Derivation of campaign rows (route.ts 412-417). -/
def deriveCampaign (c : CampaignMetric) : CampaignWithDerived :=
  { toCampaignMetric := c
    ctr := if 0 < c.impressions then c.clicks / c.impressions * 100 else 0
    safeCpc := if 0 < c.clicks then c.spend / c.clicks else jsOrZero c.cpc
    safeCpm := if 0 < c.impressions then c.spend / c.impressions * 1000 else jsOrZero c.cpm }

/- Derivation of ad rows (route.ts 418-427): note that the efficiency score
   divides by max(stored cpc or 0, 0.01) and only requires impressions > 0
   and clicks > 0. -/
def deriveAd (a : AdMetric) : AdWithDerived :=
  { toAdMetric := a
    ctr := if 0 < a.impressions then a.clicks / a.impressions * 100 else 0
    safeCpc := if 0 < a.clicks then a.spend / a.clicks else jsOrZero a.cpc
    safeCpm := if 0 < a.impressions then a.spend / a.impressions * 1000 else jsOrZero a.cpm
    efficiencyScore :=
      if 0 < a.impressions ∧ 0 < a.clicks then
        (a.clicks / a.impressions * 100) / max (jsOrZero a.cpc) (1 / 100)
      else 0 }

/- Account-wide aggregates (route.ts 70-86). -/
def overallCtr (cs : List CampaignMetric) : ℚ :=
  let clicks := cs.foldl (fun s c => s + c.clicks) 0
  let impressions := cs.foldl (fun s c => s + c.impressions) 0
  if 0 < impressions then clicks / impressions * 100 else 0

def averageCpc (cs : List CampaignMetric) : ℚ :=
  let clicks := cs.foldl (fun s c => s + c.clicks) 0
  let spend := cs.foldl (fun s c => s + c.spend) 0
  if 0 < clicks then spend / clicks else 0

def averageCpm (cs : List CampaignMetric) : ℚ :=
  let impressions := cs.foldl (fun s c => s + c.impressions) 0
  let spend := cs.foldl (fun s c => s + c.spend) 0
  if 0 < impressions then spend / impressions * 1000 else 0

/- metricValue (route.ts 132-150); the null metric falls into the spend
   default and is resolved before the call here. -/
def metricValue (c : CampaignWithDerived) (m : Metric) : ℚ :=
  match m with
  | .ctr => c.ctr
  | .cpc => c.safeCpc
  | .cpm => c.safeCpm
  | .impressions => c.impressions
  | .clicks => c.clicks
  | .results => c.results
  | .spend => c.spend

/- The ad-level metric selector also admits the efficiency score. -/
inductive AdMetricSel
  | base (m : Metric)
  | efficiency
deriving DecidableEq

/- adMetricValue (route.ts 169-192). -/
def adMetricValue (a : AdWithDerived) (m : AdMetricSel) : ℚ :=
  match m with
  | .base .ctr => a.ctr
  | .base .cpc => a.safeCpc
  | .base .cpm => a.safeCpm
  | .base .impressions => a.impressions
  | .base .clicks => a.clicks
  | .base .results => a.results
  | .base .spend => a.spend
  | .efficiency => a.efficiencyScore

/- Conversation messages (route.ts 8-18). -/

inductive ChatRole
  | user
  | assistant
deriving DecidableEq

structure ChatMessage where
  role : ChatRole
  content : String
deriving DecidableEq

/- matchCampaignByName (route.ts 230-243): empty normalized name resolves to
   nothing; exact normalized match first, then substring containment in
   either direction. -/
def matchCampaignByName (name : String) (cs : List CampaignWithDerived) : Option CampaignWithDerived :=
  let normalized := normalizeText name.data
  if normalized.isEmpty then none
  else
    match cs.find? (fun c => decide (normalizeText c.name.data = normalized)) with
    | some c => some c
    | none =>
        cs.find? (fun c =>
          hasSubstr normalized (normalizeText c.name.data) ||
            hasSubstr (normalizeText c.name.data) normalized)

/- matchAdByName (route.ts 245-258). -/
def matchAdByName (name : String) (ads : List AdWithDerived) : Option AdWithDerived :=
  let normalized := normalizeText name.data
  if normalized.isEmpty then none
  else
    match ads.find? (fun a => decide (normalizeText a.name.data = normalized)) with
    | some a => some a
    | none =>
        ads.find? (fun a =>
          hasSubstr normalized (normalizeText a.name.data) ||
            hasSubstr (normalizeText a.name.data) normalized)

/- uniqueCampaigns (route.ts 283-294): drop nulls, deduplicate by id, keep
   first occurrences in order. -/
def uniqueCampaignsAux (seen : List String) : List (Option CampaignWithDerived) → List CampaignWithDerived
  | [] => []
  | none :: t => uniqueCampaignsAux seen t
  | some c :: t =>
      if seen.contains c.id then uniqueCampaignsAux seen t
      else c :: uniqueCampaignsAux (c.id :: seen) t

def uniqueCampaigns (l : List (Option CampaignWithDerived)) : List CampaignWithDerived :=
  uniqueCampaignsAux [] l

/- The fuzzy token-overlap score of findNamedCampaigns (route.ts 217-227). -/
def fuzzyScore (qTokens : List (List Char)) (name : String) : ℚ :=
  let cTokens := splitTokens name
  let overlap := (cTokens.filter (fun t => qTokens.contains t)).length
  (overlap : ℚ) / ((max cTokens.length 1 : ℕ) : ℚ)

def fuzzyNamedCampaigns (question : String) (cs : List CampaignWithDerived) : List CampaignWithDerived :=
  let qTokens := splitTokens question
  if qTokens.isEmpty then []
  else
    let scored := cs.map (fun c => (c, fuzzyScore qTokens c.name))
    let kept := scored.filter (fun it => decide ((7 : ℚ) / 20 ≤ it.2))
    let sorted := stableSort (fun a b => decide (b.2 ≤ a.2)) kept
    (sorted.take 3).map (fun it => it.1)

/- findNamedCampaigns (route.ts 205-228): quoted exact matches win when any
   quoted text resolves; otherwise the fuzzy token-overlap path. -/
def findNamedCampaigns (question : String) (cs : List CampaignWithDerived) : List CampaignWithDerived :=
  let quoted := (extractQuoted 140 question.data).map normalizeText
  let matched := quoted.filterMap (fun nm => cs.find? (fun c => decide (normalizeText c.name.data = nm)))
  if 0 < quoted.length then
    if 0 < matched.length then matched else fuzzyNamedCampaigns question cs
  else fuzzyNamedCampaigns question cs

/- findMostRecentMentionedAd (route.ts 260-281): scan assistant messages
   backward for quoted ad names, then ranked-list names (dash class includes
   the en and em dashes here). -/
def mentionedAdAux (ads : List AdWithDerived) : List ChatMessage → Option AdWithDerived
  | [] => none
  | m :: rest =>
      if m.role = .assistant then
        let quoted := extractQuoted 180 m.content.data
        match quoted.findSome? (fun n => matchAdByName (String.mk n) ads) with
        | some a => some a
        | none =>
            let ranked := (scanRanked anyDash m.content.data).map (fun n => String.mk (trimChars n))
            match ranked.findSome? (fun n => matchAdByName n ads) with
            | some a => some a
            | none => mentionedAdAux ads rest
      else mentionedAdAux ads rest

def findMostRecentMentionedAd (history : List ChatMessage) (ads : List AdWithDerived) : Option AdWithDerived :=
  mentionedAdAux ads history.reverse

/- extractRankedNames (route.ts 296-308): most recent assistant message with
   ranked-list lines supplies the trimmed names (hyphen-minus dash only). -/
def rankedNamesAux : List ChatMessage → List String
  | [] => []
  | m :: rest =>
      if m.role = .assistant then
        let ms := scanRanked hyphenDash m.content.data
        if 0 < ms.length then ms.map (fun n => String.mk (trimChars n))
        else rankedNamesAux rest
      else rankedNamesAux rest

def extractRankedNames (history : List ChatMessage) : List String :=
  rankedNamesAux history.reverse

/- findMostRecentMention (route.ts 346-363): scan all messages backward (no
   role filter here) for quoted then ranked names; the ranked names are not
   trimmed at this call site. -/
def recentMentionAux (cs : List CampaignWithDerived) : List ChatMessage → List CampaignWithDerived
  | [] => []
  | m :: rest =>
      let resolvedQuoted :=
        uniqueCampaigns ((extractQuoted 140 m.content.data).map (fun n => matchCampaignByName (String.mk n) cs))
      if 0 < resolvedQuoted.length then resolvedQuoted
      else
        let rankedNames := (scanRanked hyphenDash m.content.data).map (fun n => String.mk n)
        let resolvedRanked := uniqueCampaigns (rankedNames.map (fun n => matchCampaignByName n cs))
        if 0 < resolvedRanked.length then resolvedRanked
        else recentMentionAux cs rest

def findMostRecentMention (history : List ChatMessage) (cs : List CampaignWithDerived) : List CampaignWithDerived :=
  recentMentionAux cs history.reverse

/- extractOrdinalIndexes (route.ts 310-344): named ordinals in first..tenth
   order, then the two numeric forms, deduplicated preserving insertion
   order; numeric captures map to zero-based indices and out-of-range ones
   are dropped. -/
def namedOrdinals : List (String × ℕ) :=
  [("first", 0), ("second", 1), ("third", 2), ("fourth", 3), ("fifth", 4),
   ("sixth", 5), ("seventh", 6), ("eighth", 7), ("ninth", 8), ("tenth", 9)]

def dedupNatAux (seen : List ℕ) : List ℕ → List ℕ
  | [] => []
  | n :: t => if seen.contains n then dedupNatAux seen t else n :: dedupNatAux (n :: seen) t

def keepIndexRange (ns : List ℕ) : List ℕ :=
  (ns.map (fun n => (n : ℤ) - 1)).filterMap (fun i => if 0 ≤ i ∧ i < 10 then some i.toNat else none)

def extractOrdinalIndexes (query : String) : List ℕ :=
  let q := jsLower query.data
  let named := namedOrdinals.filterMap (fun wi => if containsTokenWB wi.1.data q then some wi.2 else none)
  let numeric1 := keepIndexRange (scanOrdinalAux q.length q false)
  let numeric2 := keepIndexRange (scanNumAux q.length q false)
  dedupNatAux [] (named ++ numeric1 ++ numeric2)

/- The pronoun fallback tail of resolveCampaignReferences (route.ts
   387-402). -/
def pronounResolve (q : String) (history : List ChatMessage) (campaigns rankedCampaigns : List CampaignWithDerived) :
    List CampaignWithDerived :=
  let pronounReference :=
    jsIncludes q ("that one") || jsIncludes q ("that campaign") ||
      jsIncludes q ("this campaign") || q = ("it") ||
      jsIncludes q (" about it") || jsIncludes q ("about that")
  if pronounReference then
    match rankedCampaigns with
    | c :: _ => [c]
    | [] =>
        match findMostRecentMention history campaigns with
        | c :: _ => [c]
        | [] => []
  else []

/- resolveCampaignReferences (route.ts 365-403). -/
def resolveCampaignReferences (question : String) (history : List ChatMessage)
    (campaigns : List CampaignWithDerived) : List CampaignWithDerived :=
  let explicitRefs := findNamedCampaigns question campaigns
  if 0 < explicitRefs.length then explicitRefs
  else
    let q := jsLowerS question
    let rankedNames := extractRankedNames history
    let rankedCampaigns := uniqueCampaigns (rankedNames.map (fun n => matchCampaignByName n campaigns))
    if (jsIncludes q ("those two") || jsIncludes q ("both")) && 2 ≤ rankedCampaigns.length then
      rankedCampaigns.take 2
    else
      let ordinals := extractOrdinalIndexes q
      if 0 < ordinals.length && 0 < rankedCampaigns.length then
        let picked := uniqueCampaigns (ordinals.map (fun i => rankedCampaigns[i]?))
        if 0 < picked.length then picked
        else pronounResolve q history campaigns rankedCampaigns
      else pronounResolve q history campaigns rankedCampaigns

/- Answers of the rule-based composer. Each constructor corresponds to one
   return site of buildRuleBasedAnswer (route.ts 405-672) and carries exactly
   the data interpolated into that template string. -/
inductive RuleAnswer
  | campaignCount (n : ℕ)
  | adCount (n : ℕ)
  | efficiencyDef (sample : Option AdWithDerived)
  | adsNoData
  | adRankNotEnough
  | adTopSingle (metric : AdMetricSel) (best : AdWithDerived)
  | adTopList (topN : ℕ) (metric : AdMetricSel) (selected : List AdWithDerived)
  | metricDef (m : Metric)
  | summary (spend impressions clicks : ℚ) (ctr avgCpc avgCpm : ℚ)
  | platformBreakdown (lines : List (String × ℚ × ℚ))
  | totalSpendAnswer (spend : ℚ) (campaignCount : ℕ)
  | totalImpressionsAnswer (v : ℚ)
  | totalClicksAnswer (v : ℚ)
  | totalResultsAnswer (v : ℚ)
  | overallCtrAnswer (v : ℚ)
  | avgCpcAnswer (v : ℚ)
  | avgCpmAnswer (v : ℚ)
  | comparison (left right : CampaignWithDerived) (winner : String)
  | profile (c : CampaignWithDerived) (spendRank : ℤ) (share : ℚ)
  | campaignNoMatch
  | campaignTopN (topN : ℕ) (metric : Metric) (selected : List CampaignWithDerived)
  | recommendations (highSpendLowCtr strongEfficiency lowVolume : Option CampaignWithDerived)
  | help
deriving DecidableEq

/- Array.prototype.findIndex: zero-based index of the first match, -1 when
   absent. -/
def jsFindIndex (p : α → Bool) : List α → ℤ
  | [] => -1
  | x :: t =>
      if p x then 0
      else
        let r := jsFindIndex p t
        if r = -1 then -1 else r + 1

/- The filter applied to ads before ranking (route.ts 485-488): efficiency
   ranking restricts to impressions >= 100 and clicks > 0, every other metric
   to rows with any of impressions, clicks, spend positive. -/
def adSignalFilter (sel : AdMetricSel) (ads : List AdWithDerived) : List AdWithDerived :=
  match sel with
  | .efficiency => ads.filter (fun a => decide ((100 : ℚ) ≤ a.impressions) && decide ((0 : ℚ) < a.clicks))
  | .base _ =>
      ads.filter (fun a =>
        decide ((0 : ℚ) < a.impressions) || decide ((0 : ℚ) < a.clicks) || decide ((0 : ℚ) < a.spend))

/- The sort-then-truncate of the ad ranking (route.ts 489-493). -/
def adRankSelected (sel : AdMetricSel) (ord : Order) (n : ℕ) (ads : List AdWithDerived) : List AdWithDerived :=
  (stableSort
      (fun a b =>
        if ord = .asc then decide (adMetricValue a sel ≤ adMetricValue b sel)
        else decide (adMetricValue b sel ≤ adMetricValue a sel))
      (adSignalFilter sel ads)).take n

/- The campaign ranking (route.ts 627-631) sorts all derived campaigns with
   no signal filter, then truncates. -/
def campaignRankSelected (m : Metric) (ord : Order) (n : ℕ) (cs : List CampaignWithDerived) :
    List CampaignWithDerived :=
  (stableSort
      (fun a b =>
        if ord = .asc then decide (metricValue a m ≤ metricValue b m)
        else decide (metricValue b m ≤ metricValue a m))
      cs).take n

/- Aggregation by platform (route.ts 536-546): object keys in first-insertion
   order, accumulating spend, clicks, impressions. An absent or empty
   platform string falls to the "unknown" key. -/
structure PlatformAgg where
  platform : String
  spend : ℚ
  clicks : ℚ
  impressions : ℚ
deriving DecidableEq

def platformKey : Option String → String
  | some p => if p = "" then "unknown" else p
  | none => "unknown"

def addToGroup : List PlatformAgg → String → CampaignWithDerived → List PlatformAgg
  | [], k, c => [⟨k, c.spend, c.clicks, c.impressions⟩]
  | g :: t, k, c =>
      if g.platform = k then
        ⟨g.platform, g.spend + c.spend, g.clicks + c.clicks, g.impressions + c.impressions⟩ :: t
      else g :: addToGroup t k c

def platformLines (derivedCampaigns : List CampaignWithDerived) : List (String × ℚ × ℚ) :=
  let grouped := derivedCampaigns.foldl (fun acc c => addToGroup acc (platformKey c.platform) c) []
  ((stableSort (fun a b => decide (b.spend ≤ a.spend)) grouped).take 4).map
    (fun g => (g.platform, g.spend, if 0 < g.impressions then g.clicks / g.impressions * 100 else 0))

/- buildRuleBasedAnswer (route.ts 405-672): the ordered intent-handler
   cascade of the rule-based composer. -/
def buildRuleBasedAnswer (question : String) (campaigns : List CampaignMetric)
    (history : List ChatMessage) (ads : List AdMetric) : RuleAnswer :=
  let q := jsLowerS question
  let derivedCampaigns := campaigns.map deriveCampaign
  let derivedAds := ads.map deriveAd
  let totalSpend := campaigns.foldl (fun s c => s + c.spend) 0
  let totalImpressions := campaigns.foldl (fun s c => s + c.impressions) 0
  let totalClicks := campaigns.foldl (fun s c => s + c.clicks) 0
  let totalResults := campaigns.foldl (fun s c => s + c.results) 0
  if (jsIncludes q ("how many") || jsIncludes q ("number of")) && jsIncludes q ("campaign") then
    .campaignCount campaigns.length
  else
    let asksForAds :=
      containsTokenWBS ("ad") q || containsTokenWBS ("ads") q ||
        containsTokenWBS ("creative") q || containsTokenWBS ("creatives") q
    if (jsIncludes q ("how many") || jsIncludes q ("number of")) && asksForAds then
      .adCount derivedAds.length
    else
      let isDefinitionQuery :=
        containsTokenWBS ("what\x27s") q || containsTokenWBS ("what is") q ||
          containsTokenWBS ("define") q || containsTokenWBS ("meaning") q ||
          containsTokenWBS ("means") q || containsTokenWBS ("explain") q ||
          (jsIncludes q ("how") && (jsIncludes q ("calculate") || jsIncludes q ("computed")))
      let asksEfficiency :=
        jsIncludes q ("efficiency score") || q = ("efficiency") || q = ("efficiency score")
      let wantsTop :=
        jsIncludes q ("top") || jsIncludes q ("best") || jsIncludes q ("highest") || jsIncludes q ("most")
      let wantsWorst :=
        jsIncludes q ("worst") || jsIncludes q ("lowest") || jsIncludes q ("least")
      if asksEfficiency &&
          (isDefinitionQuery ||
            (!wantsTop && !wantsWorst && !jsIncludes q ("perform") && !jsIncludes q ("winner"))) then
        let recentAd := findMostRecentMentionedAd history derivedAds
        let bestOverall :=
          match recentAd with
          | some a => some a
          | none =>
              (stableSort (fun a b => decide (b.efficiencyScore ≤ a.efficiencyScore))
                  (derivedAds.filter
                    (fun a => decide ((100 : ℚ) ≤ a.impressions) && decide ((0 : ℚ) < a.clicks)))).head?
        .efficiencyDef bestOverall
      else if asksForAds &&
          (wantsTop || wantsWorst || jsIncludes q ("perform") || jsIncludes q ("winner")) then
        if derivedAds.length = 0 then .adsNoData
        else
          let topN := findTopN q
          let metric := detectMetric q
          let selectedMetric : AdMetricSel :=
            match metric with
            | some m => .base m
            | none =>
                if jsIncludes q ("perform") || jsIncludes q ("best") || jsIncludes q ("winner") then
                  .efficiency
                else .base .ctr
          let sortOrder : Order :=
            match selectedMetric with
            | .efficiency => if wantsWorst then .asc else .desc
            | .base m => detectOrder q (some m)
          match adRankSelected selectedMetric sortOrder topN derivedAds with
          | [] => .adRankNotEnough
          | best :: rest =>
              if topN = 1 then .adTopSingle selectedMetric best
              else .adTopList topN selectedMetric (best :: rest)
      else
        let definitionMetric := detectMetric q
        match definitionMetric,
            (jsIncludes q ("what is") || jsIncludes q ("define") || jsIncludes q ("meaning")) with
        | some m, true => .metricDef m
        | _, _ =>
          if jsIncludes q ("summary") || jsIncludes q ("overview") then
            .summary totalSpend totalImpressions totalClicks
              (overallCtr campaigns) (averageCpc campaigns) (averageCpm campaigns)
          else if jsIncludes q ("platform") && 0 < (platformLines derivedCampaigns).length then
            .platformBreakdown (platformLines derivedCampaigns)
          else if jsIncludes q ("total spend") || (jsIncludes q ("spend") && jsIncludes q ("total")) ||
              jsIncludes q ("how much spent") then
            .totalSpendAnswer totalSpend campaigns.length
          else if (jsIncludes q ("total") || jsIncludes q ("overall")) && jsIncludes q ("impression") then
            .totalImpressionsAnswer totalImpressions
          else if (jsIncludes q ("total") || jsIncludes q ("overall")) && jsIncludes q ("click") then
            .totalClicksAnswer totalClicks
          else if (jsIncludes q ("total") || jsIncludes q ("overall")) && jsIncludes q ("result") then
            .totalResultsAnswer totalResults
          else if jsIncludes q ("ctr") then .overallCtrAnswer (overallCtr campaigns)
          else if jsIncludes q ("cpc") then .avgCpcAnswer (averageCpc campaigns)
          else if jsIncludes q ("cpm") then .avgCpmAnswer (averageCpm campaigns)
          else
            let referencedCampaigns := resolveCampaignReferences question history derivedCampaigns
            let cmpWord := jsIncludes q ("compare") || jsIncludes q ("vs") || jsIncludes q ("versus")
            match referencedCampaigns, cmpWord with
            | left :: right :: _, true =>
                let leftScore := left.ctr / max left.safeCpc (1 / 100)
                let rightScore := right.ctr / max right.safeCpc (1 / 100)
                .comparison left right (if leftScore ≥ rightScore then left.name else right.name)
            | refc, _ =>
              match refc with
              | c :: _ =>
                  let spendRank :=
                    jsFindIndex (fun item => decide (item.id = c.id))
                      (stableSort (fun a b => decide (b.spend ≤ a.spend)) derivedCampaigns) + 1
                  let share := if 0 < totalSpend then c.spend / totalSpend * 100 else 0
                  .profile c spendRank share
              | [] =>
                let metric := detectMetric q
                if (jsIncludes q ("campaign") && (wantsTop || wantsWorst)) ||
                    ((wantsTop || wantsWorst) && metric.isSome) then
                  let topN := findTopN q
                  let sortOrder := detectOrder q metric
                  let selectedMetric := metric.getD .spend
                  let selected := campaignRankSelected selectedMetric sortOrder topN derivedCampaigns
                  if selected.isEmpty then .campaignNoMatch
                  else .campaignTopN topN selectedMetric selected
                else if jsIncludes q ("recommend") || jsIncludes q ("improve") || jsIncludes q ("optimiz") then
                  let highSpendLowCtr :=
                    (stableSort
                        (fun a b => decide (b.spend < a.spend ∨ (b.spend = a.spend ∧ a.ctr ≤ b.ctr)))
                        (derivedCampaigns.filter (fun c => decide ((0 : ℚ) < c.spend)))).head?
                  let strongEfficiency :=
                    (stableSort
                        (fun a b =>
                          decide (b.ctr / max b.safeCpc (1 / 100) ≤ a.ctr / max a.safeCpc (1 / 100)))
                        (derivedCampaigns.filter (fun c => decide ((0 : ℚ) < c.clicks)))).head?
                  let lowVolume :=
                    (stableSort (fun a b => decide (a.impressions ≤ b.impressions))
                        (derivedCampaigns.filter (fun c => decide ((0 : ℚ) < c.spend)))).head?
                  .recommendations highSpendLowCtr strongEfficiency lowVolume
                else .help

/- The orchestrator (route.ts POST, 855-941), for requests that passed
   validation. The single external call of getAiAnswer is modelled by its
   outcome: noConfig when no gateway is configured (getAiAnswer returns
   null), failure when the call throws (timeout, transport error, non-2xx
   status, or empty extracted text), success with the returned text
   otherwise. -/

def noDataMessage : String := "I do not have campaign data yet. Upload a CSV first, then ask again."

inductive GatewayOutcome
  | noConfig
  | failure
  | success (text : String)
deriving DecidableEq

inductive ChatMode
  | ai
  | basic
deriving DecidableEq

inductive ChatAnswer
  | plain (s : String)
  | ruleBased (a : RuleAnswer)
deriving DecidableEq

inductive ChatResult
  | ok (answer : ChatAnswer) (mode : ChatMode)
  | serverError
deriving DecidableEq

/- route.ts 901-926: the empty-dataset check precedes any gateway use; a
   truthy gateway answer returns mode ai; everything else falls to the
   rule-based answer with mode basic. -/
def handleChatRequest (gw : GatewayOutcome) (question : String) (history : List ChatMessage)
    (campaigns : List CampaignMetric) (ads : List AdMetric) : ChatResult :=
  if campaigns.length = 0 then .ok (.plain noDataMessage) .basic
  else
    match gw with
    | .success t =>
        if t = "" then .ok (.ruleBased (buildRuleBasedAnswer question campaigns history ads)) .basic
        else .ok (.plain t) .ai
    | _ => .ok (.ruleBased (buildRuleBasedAnswer question campaigns history ads)) .basic

/- Concrete rows used by the individual verification scenarios below. -/

def campA : CampaignMetric :=
  { id := "a", name := "A", spend := 100, impressions := 1000, clicks := 10, results := 0,
    cpc := none, cpm := none, platform := none }

def campB : CampaignMetric :=
  { id := "b", name := "B", spend := 50, impressions := 500, clicks := 20, results := 0,
    cpc := none, cpm := none, platform := none }

def campZ : CampaignMetric :=
  { id := "z", name := "Zeta", spend := 0, impressions := 0, clicks := 0, results := 0,
    cpc := none, cpm := none, platform := none }

def adLow : AdMetric :=
  { id := "ad1", name := "Ad One", campaignName := "A", adSetName := none,
    spend := 1, impressions := 50, clicks := 5, results := 0, cpc := some 1, cpm := none }

def adHigh : AdMetric :=
  { id := "ad2", name := "Ad Two", campaignName := "A", adSetName := none,
    spend := 100, impressions := 200, clicks := 10, results := 0, cpc := some 1, cpm := none }

def campX (s i c r : ℚ) : CampaignMetric :=
  { id := "x", name := "CampaignX", spend := s, impressions := i, clicks := c, results := r,
    cpc := none, cpm := none, platform := none }

def campY (s i c r : ℚ) : CampaignMetric :=
  { id := "y", name := "CampaignY", spend := s, impressions := i, clicks := c, results := r,
    cpc := none, cpm := none, platform := none }

def histC : List ChatMessage :=
  [{ role := .assistant, content := "1. CampaignX - spend high\n2. CampaignY - spend low" }]

def cmpQ : String := "compare \x22Alpha One\x22 \x22Beta Two\x22 \x22Gamma Three\x22"

def cA (s i c : ℚ) : CampaignMetric :=
  { id := "ca", name := "Alpha One", spend := s, impressions := i, clicks := c, results := 0,
    cpc := none, cpm := none, platform := none }

def cB (s i c : ℚ) : CampaignMetric :=
  { id := "cb", name := "Beta Two", spend := s, impressions := i, clicks := c, results := 0,
    cpc := none, cpm := none, platform := none }

def cC : CampaignMetric :=
  { id := "cc", name := "Gamma Three", spend := 3, impressions := 30, clicks := 3, results := 0,
    cpc := none, cpm := none, platform := none }

def campSummer : CampaignMetric :=
  { id := "s1", name := "Summer Sale!", spend := 9, impressions := 90, clicks := 9, results := 0,
    cpc := none, cpm := none, platform := none }

def campOther : CampaignMetric :=
  { id := "s2", name := "Winter Push", spend := 4, impressions := 40, clicks := 4, results := 0,
    cpc := none, cpm := none, platform := none }

/- Shared lemmas about the embedded list operations. -/

theorem mem_insertSorted {α : Type} (le : α → α → Bool) (x a : α) (l : List α) :
    a ∈ insertSorted le x l ↔ a = x ∨ a ∈ l := by
  induction l with
  | nil => simp [insertSorted]
  | cons y t ih =>
      simp only [insertSorted]
      split
      · simp [List.mem_cons]
      · simp [List.mem_cons, ih]
        tauto

theorem mem_stableSort {α : Type} (le : α → α → Bool) (a : α) (l : List α) :
    a ∈ stableSort le l ↔ a ∈ l := by
  induction l with
  | nil => simp [stableSort]
  | cons x t ih => simp [stableSort, mem_insertSorted, ih, List.mem_cons]

theorem find_eq_of_unique {α : Type} {p : α → Bool} {l : List α} {c : α}
    (hmem : c ∈ l) (hp : p c = true) (hu : ∀ x ∈ l, p x = true → x = c) :
    l.find? p = some c := by
  induction l with
  | nil => cases hmem
  | cons a t ih =>
      by_cases ha : p a = true
      · rw [List.find?_cons_of_pos _ ha, hu a (List.mem_cons_self a t) ha]
      · rw [List.find?_cons_of_neg _ ha]
        have hct : c ∈ t := by
          rcases List.mem_cons.mp hmem with h | h
          · exact absurd (h ▸ hp) ha
          · exact h
        exact ih hct (fun x hx hpx => hu x (List.mem_cons_of_mem a hx) hpx)

/-- Claim C1. For the dataset of campaigns A (spend 100, clicks 10,
impressions 1000) and B (spend 50, clicks 20, impressions 500), the claim
says the question "top campaign by ctr" is answered by the campaign top-N
handler with B ranked first. The code does otherwise: the bare-CTR handler
at route.ts line 577 fires first on any remaining question containing the
substring ctr, so the rule-based answer is the account-wide CTR line with
value 30 / 1500 * 100 = 2.00 percent, not a ranking. This theorem evaluates
the embedded composer at exactly that input. -/
theorem c1_code_answers_account_ctr :
    buildRuleBasedAnswer ("top campaign by ctr") [campA, campB] [] [] =
      .overallCtrAnswer 2 := by with_unfolding_all decide

/-- Claim C2, counterexample. The claim states the derived efficiencyScore is
0 whenever impressions < 100, and otherwise equals ctr / max(safeCpc, 0.01).
Both parts fail on the code: adLow (impressions 50, clicks 5, cpc 1) gets
score 10, not 0; adHigh (impressions 200, clicks 10, spend 100, cpc 1) gets
score 5 while ctr / max(safeCpc, 0.01) = 5 / 10 = 1/2, because the code
divides by the stored cpc, not safeCpc. -/
theorem c2_counterexample :
    ¬ ((adLow.clicks = 0 ∨ adLow.impressions < 100) → (deriveAd adLow).efficiencyScore = 0) ∧
    ¬ (100 ≤ adHigh.impressions → 0 < adHigh.clicks →
        (deriveAd adHigh).efficiencyScore =
          (deriveAd adHigh).ctr / max (deriveAd adHigh).safeCpc (1 / 100)) := by
  with_unfolding_all decide

/-- Claim C2, amended. For every ad row the derived efficiencyScore is
exactly 0 whenever impressions or clicks are not positive; when both are
positive it equals ctr / max(storedCpc, 0.01), where storedCpc is the stored
cpc of the row (0 when absent). The impressions >= 100 threshold of the
claim is applied by the code as a ranking filter, not inside the score. -/
theorem c2_amended_efficiency_score (a : AdMetric) :
    (¬ (0 < a.impressions ∧ 0 < a.clicks) → (deriveAd a).efficiencyScore = 0) ∧
    (0 < a.impressions → 0 < a.clicks →
      (deriveAd a).efficiencyScore = (deriveAd a).ctr / max (jsOrZero a.cpc) (1 / 100)) := by
  constructor
  · intro h
    simp [deriveAd, h]
  · intro hi hc
    simp [deriveAd, hi, hc]

/-- Witness for the amended C2 theorem at the concrete ad adHigh. -/
theorem c2_amended_witness :
    0 < adHigh.impressions ∧ 0 < adHigh.clicks ∧
      (deriveAd adHigh).efficiencyScore =
        (deriveAd adHigh).ctr / max (jsOrZero adHigh.cpc) (1 / 100) :=
  ⟨by with_unfolding_all decide, by with_unfolding_all decide,
    (c2_amended_efficiency_score adHigh).2 (by with_unfolding_all decide)
      (by with_unfolding_all decide)⟩

/-- Claim C3, counterexample. The claim states a campaign with spend,
impressions and clicks all zero never appears in a campaign top/worst-N
answer. The campaign ranking (route.ts 627-631) sorts all derived campaigns
with no signal filter, so the all-zero campaign campZ is returned by the
campaign top-N handler for the question "top campaign by spend". -/
theorem c3_counterexample :
    campZ.spend = 0 ∧ campZ.impressions = 0 ∧ campZ.clicks = 0 ∧
    buildRuleBasedAnswer ("top campaign by spend") [campZ] [] [] =
      .campaignTopN 1 .spend [deriveCampaign campZ] := by with_unfolding_all decide

/-- Claim C3, amended. The no-signal filter exists only on the ad ranking
path: for every non-efficiency metric, order and N, every ad selected by the
ad ranking has positive impressions, clicks or spend; the efficiency ranking
restricts to impressions >= 100 and clicks > 0; selections are truncated to
N. The campaign ranking applies no filter, so an all-zero campaign can
appear in a campaign top/worst-N answer, as the final concrete conjunct
shows. -/
theorem c3_amended_ranking_filter :
    (∀ (m : Metric) (ord : Order) (n : ℕ) (ads : List AdWithDerived) (a : AdWithDerived),
        a ∈ adRankSelected (.base m) ord n ads →
          (0 < a.impressions ∨ 0 < a.clicks ∨ 0 < a.spend)) ∧
    (∀ (ord : Order) (n : ℕ) (ads : List AdWithDerived) (a : AdWithDerived),
        a ∈ adRankSelected .efficiency ord n ads → (100 ≤ a.impressions ∧ 0 < a.clicks)) ∧
    (∀ (sel : AdMetricSel) (ord : Order) (n : ℕ) (ads : List AdWithDerived),
        (adRankSelected sel ord n ads).length ≤ n) ∧
    buildRuleBasedAnswer ("top campaign by spend") [campZ] [] [] =
      .campaignTopN 1 .spend [deriveCampaign campZ] := by
  refine ⟨?_, ?_, ?_, by with_unfolding_all decide⟩
  · intro m ord n ads a ha
    unfold adRankSelected at ha
    have h1 := List.take_subset _ _ ha
    rw [mem_stableSort] at h1
    have h2 := (List.mem_filter.mp h1).2
    have h3 : (0 < a.impressions ∨ 0 < a.clicks) ∨ 0 < a.spend := by
      simpa [adSignalFilter] using h2
    tauto
  · intro ord n ads a ha
    unfold adRankSelected at ha
    have h1 := List.take_subset _ _ ha
    rw [mem_stableSort] at h1
    have h2 := (List.mem_filter.mp h1).2
    simpa [adSignalFilter] using h2
  · intro sel ord n ads
    exact List.length_take_le n _

set_option maxRecDepth 8000 in
/-- Witness for the amended C3 theorem: the ad adHigh is selected by the
spend ranking over the singleton ad list, and the theorem yields its
signal. -/
theorem c3_amended_witness :
    deriveAd adHigh ∈ adRankSelected (.base .spend) .desc 1 [deriveAd adHigh] ∧
      (0 < (deriveAd adHigh).impressions ∨ 0 < (deriveAd adHigh).clicks ∨
        0 < (deriveAd adHigh).spend) :=
  ⟨by with_unfolding_all decide,
    c3_amended_ranking_filter.1 .spend .desc 1 [deriveAd adHigh] (deriveAd adHigh)
      (by with_unfolding_all decide)⟩

/-- Claim C4. For every request that passed validation, the orchestrator
returns a success result with some answer, whatever the dataset and the
gateway outcome; when the gateway call fails the mode is basic, and on a
non-empty dataset the answer is then exactly the rule-based one, so no error
reaches the caller. -/
theorem c4_orchestrator_total (gw : GatewayOutcome) (question : String) (history : List ChatMessage)
    (campaigns : List CampaignMetric) (ads : List AdMetric) :
    (∃ a m, handleChatRequest gw question history campaigns ads = .ok a m) ∧
    (gw = .failure → ∃ a, handleChatRequest gw question history campaigns ads = .ok a .basic) ∧
    (gw = .failure → campaigns ≠ [] →
      handleChatRequest gw question history campaigns ads =
        .ok (.ruleBased (buildRuleBasedAnswer question campaigns history ads)) .basic) := by
  refine ⟨?_, fun hgw => ?_, fun hgw hcs => ?_⟩
  · unfold handleChatRequest
    split
    · exact ⟨_, _, rfl⟩
    · cases gw with
      | success t =>
          by_cases ht : t = ""
          · refine ⟨.ruleBased (buildRuleBasedAnswer question campaigns history ads), .basic, ?_⟩
            simp [ht]
          · refine ⟨.plain t, .ai, ?_⟩
            simp [ht]
      | noConfig => exact ⟨_, _, rfl⟩
      | failure => exact ⟨_, _, rfl⟩
  · subst hgw
    unfold handleChatRequest
    split
    · exact ⟨_, rfl⟩
    · exact ⟨_, rfl⟩
  · subst hgw
    unfold handleChatRequest
    rw [if_neg (fun h => hcs (List.length_eq_zero.mp h))]

/-- Witness for the C4 theorem: a failing gateway with a one-campaign
dataset yields the rule-based answer with mode basic. -/
theorem c4_witness :
    handleChatRequest .failure ("hi there") [] [campA] [] =
      .ok (.ruleBased (buildRuleBasedAnswer ("hi there") [campA] [] [])) .basic :=
  (c4_orchestrator_total .failure ("hi there") [] [campA] []).2.2 rfl (List.cons_ne_nil _ _)

/-- Claim C5. With an empty campaign snapshot, every request receives
exactly the fixed no-data answer with mode basic, for every gateway outcome:
the quantification over the outcome shows the gateway is never consulted,
and no other handler contributes to the answer. -/
theorem c5_empty_dataset_fixed_answer (gw : GatewayOutcome) (question : String)
    (history : List ChatMessage) (ads : List AdMetric) :
    handleChatRequest gw question history [] ads = .ok (.plain noDataMessage) .basic := rfl

/-- Claim C6. detectOrder on the question best with metric cpc is ascending,
on worst with spend ascending, on worst with cpc descending; a question
carrying one of the explicit words lowest, least, min, bottom is ascending
for every metric; one carrying highest, most, max or top (and none of the
ascending words, which the source checks first) is descending for every
metric; with no signal word at all the default is ascending exactly for the
cost metrics cpc and cpm. -/
theorem c6_detect_order :
    detectOrder ("best") (some .cpc) = .asc ∧
    detectOrder ("worst") (some .spend) = .asc ∧
    detectOrder ("worst") (some .cpc) = .desc ∧
    (∀ (q : String) (m : Option Metric), hasAscSignal (jsLowerS q) = true →
      detectOrder q m = .asc) ∧
    (∀ (q : String) (m : Option Metric), hasDescSignal (jsLowerS q) = true →
      hasAscSignal (jsLowerS q) = false → detectOrder q m = .desc) ∧
    (∀ (q : String) (m : Option Metric), hasAscSignal (jsLowerS q) = false →
      hasDescSignal (jsLowerS q) = false → jsIncludes (jsLowerS q) ("best") = false →
      jsIncludes (jsLowerS q) ("worst") = false →
      detectOrder q m = (if isCostMetric m then Order.asc else Order.desc)) := by
  refine ⟨by decide, by decide, by decide, ?_, ?_, ?_⟩
  · intro q m h
    simp [detectOrder, h]
  · intro q m h1 h2
    simp [detectOrder, h1, h2]
  · intro q m h1 h2 h3 h4
    simp [detectOrder, h1, h2, h3, h4]

/-- Witness for the C6 theorem: the explicit word bottom forces ascending
for a volume metric. -/
theorem c6_witness : detectOrder ("bottom 3 by spend") (some .ctr) = .asc :=
  c6_detect_order.2.2.2.1 ("bottom 3 by spend") (some .ctr) (by decide)

/-- Claim C7. findTopN captures a 1-2 digit count after one of the keywords
top, best, highest, lowest, worst, least, most and clamps it to [1, 10]:
the question top 25 yields 10, top 0 yields 1; every question with no such
match yields 1; matched counts are clamped with min and max, and the result
always lies in [1, 10]. -/
theorem c7_find_top_n :
    findTopN ("top 25 campaigns") = 10 ∧
    findTopN ("top 0 campaigns") = 1 ∧
    (∀ q : String, findTopNMatch q = none → findTopN q = 1) ∧
    (∀ (q : String) (n : ℕ), findTopNMatch q = some n → findTopN q = min (max 1 n) 10) ∧
    (∀ q : String, 1 ≤ findTopN q ∧ findTopN q ≤ 10) := by
  refine ⟨by decide, by decide, ?_, ?_, ?_⟩
  · intro q h
    simp [findTopN, h]
  · intro q n h
    simp [findTopN, h]
  · intro q
    unfold findTopN
    cases findTopNMatch q with
    | none => exact ⟨le_refl 1, by norm_num⟩
    | some n => exact ⟨le_min (le_max_left 1 n) (by norm_num), min_le_right _ 10⟩

/-- Witness for the C7 theorem: a question with no keyword-number match
defaults to 1. -/
theorem c7_witness :
    findTopNMatch ("what happened yesterday") = none ∧
      findTopN ("what happened yesterday") = 1 :=
  ⟨by decide, c7_find_top_n.2.2.1 ("what happened yesterday") (by decide)⟩

/-- Claim C8. When the question contains exactly one double-quoted string
whose normalization equals the normalized name of exactly one campaign of
the dataset, the entity resolver returns exactly that campaign and nothing
else; the history binder is universally quantified, so the ranked-list,
ordinal and pronoun steps contribute nothing, and the second conjunct pins
the result to the quoted-exact step of findNamedCampaigns. -/
theorem c8_quoted_exact_resolution (question : String) (history : List ChatMessage)
    (cs : List CampaignWithDerived) (s : List Char) (c : CampaignWithDerived)
    (hq : extractQuoted 140 question.data = [s])
    (hmem : c ∈ cs)
    (hname : normalizeText c.name.data = normalizeText s)
    (huniq : ∀ c2 ∈ cs, normalizeText c2.name.data = normalizeText s → c2 = c) :
    resolveCampaignReferences question history cs = [c] ∧
      findNamedCampaigns question cs = [c] := by
  have hfind : cs.find? (fun c2 => decide (normalizeText c2.name.data = normalizeText s)) = some c := by
    refine find_eq_of_unique hmem (by simp [hname]) ?_
    intro x hx hpx
    exact huniq x hx (by simpa using hpx)
  have hnamed : findNamedCampaigns question cs = [c] := by
    unfold findNamedCampaigns
    rw [hq]
    simp [hfind]
  refine ⟨?_, hnamed⟩
  unfold resolveCampaignReferences
  rw [hnamed]
  simp

/-- Witness for the C8 theorem: the quoted name Summer Sale resolves to the
campaign named Summer Sale! and to nothing else, for an empty history. -/
theorem c8_witness :
    resolveCampaignReferences ("tell me about \x22Summer Sale\x22") []
        (List.map deriveCampaign [campSummer, campOther]) =
      [deriveCampaign campSummer] :=
  (c8_quoted_exact_resolution ("tell me about \x22Summer Sale\x22") []
      (List.map deriveCampaign [campSummer, campOther]) (("Summer Sale").data)
      (deriveCampaign campSummer) (by decide) (List.mem_cons_self _ _) (by decide)
      (by
        intro c2 h2 hn2
        rcases List.mem_cons.mp h2 with h | h
        · exact h
        · rcases List.mem_cons.mp h with h | h
          · exact absurd (h ▸ hn2) (by decide)
          · cases h)).1

/-- Claim C9. With the most recent assistant message carrying the ranked
list 1. CampaignX - ... newline 2. CampaignY - ..., both names resolving
against the dataset, the question tell me about the second one resolves to
CampaignY (zero-based index 1 of the ranked-list memory) for all campaign
metrics, and the composed answer is the single-entity profile of CampaignY,
not a ranking. -/
/- General helper: the fuzzy path returns nothing when every campaign scores
   below the 0.35 threshold. -/
theorem fuzzyNamed_eq_nil (question : String) (cs : List CampaignWithDerived)
    (h : ∀ c ∈ cs, decide ((7 : ℚ) / 20 ≤ fuzzyScore (splitTokens question) c.name) = false) :
    fuzzyNamedCampaigns question cs = [] := by
  have hkept : (cs.map (fun c => (c, fuzzyScore (splitTokens question) c.name))).filter
      (fun it => decide ((7 : ℚ) / 20 ≤ it.2)) = [] := by
    rw [List.filter_eq_nil_iff]
    intro it hit
    rcases List.mem_map.mp hit with ⟨c, hc, rfl⟩
    simpa using h c hc
  unfold fuzzyNamedCampaigns
  dsimp only
  split
  · rfl
  · rw [hkept]
    rfl

/-- Claim C9. With the most recent assistant message carrying the ranked
list 1. CampaignX - ... newline 2. CampaignY - ..., both names resolving
against the dataset, the question tell me about the second one resolves to
CampaignY (zero-based index 1 of the ranked-list memory) for all campaign
metrics, and the composed answer is the single-entity profile of CampaignY,
not a ranking. -/
theorem c9_ordinal_reference_profile (sx ix cx rx sy iy cy ry : ℚ) :
    resolveCampaignReferences ("tell me about the second one") histC
        (List.map deriveCampaign [campX sx ix cx rx, campY sy iy cy ry]) =
      [deriveCampaign (campY sy iy cy ry)] ∧
    ∃ (rank : ℤ) (share : ℚ),
      buildRuleBasedAnswer ("tell me about the second one")
          [campX sx ix cx rx, campY sy iy cy ry] histC [] =
        .profile (deriveCampaign (campY sy iy cy ry)) rank share := by
  have hq0 : extractQuoted 140 ("tell me about the second one").data = [] := by decide
  have hnamed : findNamedCampaigns ("tell me about the second one")
      [deriveCampaign (campX sx ix cx rx), deriveCampaign (campY sy iy cy ry)] = [] := by
    have hfz : fuzzyNamedCampaigns ("tell me about the second one")
        [deriveCampaign (campX sx ix cx rx), deriveCampaign (campY sy iy cy ry)] = [] := by
      refine fuzzyNamed_eq_nil _ _ ?_
      intro c hc
      rcases List.mem_cons.mp hc with h | h
      · subst h
        show decide ((7 : ℚ) / 20 ≤
          fuzzyScore (splitTokens ("tell me about the second one")) ("CampaignX")) = false
        with_unfolding_all decide
      · rcases List.mem_cons.mp h with h | h
        · subst h
          show decide ((7 : ℚ) / 20 ≤
            fuzzyScore (splitTokens ("tell me about the second one")) ("CampaignY")) = false
          with_unfolding_all decide
        · cases h
    unfold findNamedCampaigns
    rw [hq0]
    simpa using hfz
  have hpXX : decide (normalizeText (deriveCampaign (campX sx ix cx rx)).name.data =
      normalizeText ("CampaignX").data) = true := by
    show decide (normalizeText ("CampaignX").data = normalizeText ("CampaignX").data) = true
    decide
  have hpXY : decide (normalizeText (deriveCampaign (campX sx ix cx rx)).name.data =
      normalizeText ("CampaignY").data) = false := by
    show decide (normalizeText ("CampaignX").data = normalizeText ("CampaignY").data) = false
    decide
  have hpYY : decide (normalizeText (deriveCampaign (campY sy iy cy ry)).name.data =
      normalizeText ("CampaignY").data) = true := by
    show decide (normalizeText ("CampaignY").data = normalizeText ("CampaignY").data) = true
    decide
  have hmX : matchCampaignByName ("CampaignX")
      [deriveCampaign (campX sx ix cx rx), deriveCampaign (campY sy iy cy ry)] =
      some (deriveCampaign (campX sx ix cx rx)) := by
    unfold matchCampaignByName
    rw [if_neg (by decide)]
    simp only [List.find?_cons, hpXX]
  have hmY : matchCampaignByName ("CampaignY")
      [deriveCampaign (campX sx ix cx rx), deriveCampaign (campY sy iy cy ry)] =
      some (deriveCampaign (campY sy iy cy ry)) := by
    unfold matchCampaignByName
    rw [if_neg (by decide)]
    simp only [List.find?_cons, hpXY, hpYY]
  have hrn : extractRankedNames histC = [("CampaignX"), ("CampaignY")] := by decide
  have hord : extractOrdinalIndexes (jsLowerS ("tell me about the second one")) = [1] := by decide
  have hb1 : jsIncludes (jsLowerS ("tell me about the second one")) ("those two") = false := by
    decide
  have hb2 : jsIncludes (jsLowerS ("tell me about the second one")) ("both") = false := by decide
  have hnilX : (([] : List String).contains (deriveCampaign (campX sx ix cx rx)).id) = false := rfl
  have hnilY : (([] : List String).contains (deriveCampaign (campY sy iy cy ry)).id) = false := rfl
  have hidXY : ¬ (deriveCampaign (campY sy iy cy ry)).id =
      (deriveCampaign (campX sx ix cx rx)).id := by
    show ¬ ("y") = ("x")
    decide
  have huniq2 : uniqueCampaigns [some (deriveCampaign (campX sx ix cx rx)),
      some (deriveCampaign (campY sy iy cy ry))] =
      [deriveCampaign (campX sx ix cx rx), deriveCampaign (campY sy iy cy ry)] := by
    simp [uniqueCampaigns, uniqueCampaignsAux, hnilX, hidXY]
  have huniq1 : uniqueCampaigns [some (deriveCampaign (campY sy iy cy ry))] =
      [deriveCampaign (campY sy iy cy ry)] := by
    simp [uniqueCampaigns, uniqueCampaignsAux, hnilY]
  have hresolve : resolveCampaignReferences ("tell me about the second one") histC
      [deriveCampaign (campX sx ix cx rx), deriveCampaign (campY sy iy cy ry)] =
      [deriveCampaign (campY sy iy cy ry)] := by
    simp [resolveCampaignReferences, hnamed, hrn, hord, hb1, hb2, hmX, hmY, huniq2, huniq1]
  have gi1 : jsIncludes (jsLowerS ("tell me about the second one")) ("how many") = false := by
    decide
  have gi2 : jsIncludes (jsLowerS ("tell me about the second one")) ("number of") = false := by
    decide
  have gi3 : jsIncludes (jsLowerS ("tell me about the second one")) ("efficiency score") = false := by
    decide
  have gi4 : jsIncludes (jsLowerS ("tell me about the second one")) ("what is") = false := by
    decide
  have gi5 : jsIncludes (jsLowerS ("tell me about the second one")) ("define") = false := by
    decide
  have gi6 : jsIncludes (jsLowerS ("tell me about the second one")) ("meaning") = false := by
    decide
  have gi7 : jsIncludes (jsLowerS ("tell me about the second one")) ("summary") = false := by
    decide
  have gi8 : jsIncludes (jsLowerS ("tell me about the second one")) ("overview") = false := by
    decide
  have gi9 : jsIncludes (jsLowerS ("tell me about the second one")) ("platform") = false := by
    decide
  have gi10 : jsIncludes (jsLowerS ("tell me about the second one")) ("total spend") = false := by
    decide
  have gi11 : jsIncludes (jsLowerS ("tell me about the second one")) ("spend") = false := by
    decide
  have gi12 : jsIncludes (jsLowerS ("tell me about the second one")) ("how much spent") = false := by
    decide
  have gi13 : jsIncludes (jsLowerS ("tell me about the second one")) ("total") = false := by
    decide
  have gi14 : jsIncludes (jsLowerS ("tell me about the second one")) ("overall") = false := by
    decide
  have gi15 : jsIncludes (jsLowerS ("tell me about the second one")) ("ctr") = false := by decide
  have gi16 : jsIncludes (jsLowerS ("tell me about the second one")) ("cpc") = false := by decide
  have gi17 : jsIncludes (jsLowerS ("tell me about the second one")) ("cpm") = false := by decide
  have gi18 : jsIncludes (jsLowerS ("tell me about the second one")) ("compare") = false := by
    decide
  have gi19 : jsIncludes (jsLowerS ("tell me about the second one")) ("vs") = false := by decide
  have gi20 : jsIncludes (jsLowerS ("tell me about the second one")) ("versus") = false := by
    decide
  have gt1 : containsTokenWBS ("ad") (jsLowerS ("tell me about the second one")) = false := by
    decide
  have gt2 : containsTokenWBS ("ads") (jsLowerS ("tell me about the second one")) = false := by
    decide
  have gt3 : containsTokenWBS ("creative") (jsLowerS ("tell me about the second one")) = false := by
    decide
  have gt4 : containsTokenWBS ("creatives") (jsLowerS ("tell me about the second one")) = false := by
    decide
  have ge1 : decide (jsLowerS ("tell me about the second one") = ("efficiency")) = false := by
    decide
  have ge2 : decide (jsLowerS ("tell me about the second one") = ("efficiency score")) = false := by
    decide
  have hdm : detectMetric (jsLowerS ("tell me about the second one")) = none := by decide
  constructor
  · simpa using hresolve
  · simp only [buildRuleBasedAnswer, List.map_cons, List.map_nil, gi1, gi2, gi3, gi4, gi5, gi6,
      gi7, gi8, gi9, gi10, gi11, gi12, gi13, gi14, gi15, gi16, gi17, gi18, gi19, gi20,
      gt1, gt2, gt3, gt4, ge1, ge2, hdm, hresolve, Bool.false_or, Bool.or_false, Bool.false_and,
      Bool.and_false, Bool.or_self, Bool.false_eq_true, if_false, ite_false]
    exact ⟨_, _, rfl⟩

/-- Claim C10. In the two-entity comparison handler, when the two resolved
campaigns have exactly equal efficiency scores ctr / max(safeCpc, 0.01) the
first resolved campaign is declared the winner, and when three campaigns
resolve only the first two are compared: the third quoted campaign of cmpQ
does not appear in the comparison answer. -/
theorem c10_comparison_tie_and_first_two (s1 i1 k1 s2 i2 k2 : ℚ)
    (hEq : (deriveCampaign (cA s1 i1 k1)).ctr /
          max (deriveCampaign (cA s1 i1 k1)).safeCpc (1 / 100) =
        (deriveCampaign (cB s2 i2 k2)).ctr /
          max (deriveCampaign (cB s2 i2 k2)).safeCpc (1 / 100)) :
    buildRuleBasedAnswer cmpQ [cA s1 i1 k1, cB s2 i2 k2, cC] [] [] =
      .comparison (deriveCampaign (cA s1 i1 k1)) (deriveCampaign (cB s2 i2 k2))
        ("Alpha One") := by
  have hred : buildRuleBasedAnswer cmpQ [cA s1 i1 k1, cB s2 i2 k2, cC] [] [] =
      .comparison (deriveCampaign (cA s1 i1 k1)) (deriveCampaign (cB s2 i2 k2))
        (if (deriveCampaign (cA s1 i1 k1)).ctr /
              max (deriveCampaign (cA s1 i1 k1)).safeCpc (1 / 100) ≥
            (deriveCampaign (cB s2 i2 k2)).ctr /
              max (deriveCampaign (cB s2 i2 k2)).safeCpc (1 / 100)
          then (deriveCampaign (cA s1 i1 k1)).name
          else (deriveCampaign (cB s2 i2 k2)).name) := by
    with_unfolding_all rfl
  rw [hred, if_pos (ge_of_eq hEq)]
  rfl

/-- Witness for the C10 theorem: two campaigns with different raw metrics
but equal efficiency scores 1.00; the first one wins the tie and the third
campaign is ignored. -/
theorem c10_witness :
    buildRuleBasedAnswer cmpQ [cA 10 1000 10, cB 40 1000 20, cC] [] [] =
      .comparison (deriveCampaign (cA 10 1000 10)) (deriveCampaign (cB 40 1000 20))
        ("Alpha One") :=
  c10_comparison_tie_and_first_two 10 1000 10 40 1000 20 (by with_unfolding_all decide)

end AdsChat








